import Mathlib

/-!
Shallow embedding of the ComfyUI-Usgromana client access-control layer.

Part I models the progressive lockout controller of the login page script
(`updateFailedAttempts`, `setTimeoutFromServer`, `loadTimeoutFromStorage`
and the inline threshold block), with `localStorage` as two optional
integer slots and the two module variables as explicit state.

Part II models the capability-based UI policy engine of
`usgromana_settings.js` (`updateEnforcementStyles`, the `shouldBlock`
helper of `enforceMenus`, the per-element decision of `enforceSidebar`,
`isWorkflowSaveAllowed` and the 403 watcher of
`installWorkflowSaveDeniedWatcher`).
-/

namespace Usgromana

/-- State held by the lockout controller: the two module-level variables
`failedAttempts` / `timeoutEndTime` and the two persisted `localStorage`
slots `"failedAttempts"` / `"timeoutEndTime"` (absent = `none`). -/
structure LockState where
  failedAttempts : Int
  timeoutEndTime : Option Int
  storedAttempts : Option Int
  storedEnd : Option Int
  deriving Repr, DecidableEq

/-- JSON payload fields inspected by `updateFailedAttempts`:
`result.failed_attempts` and `result.remaining_seconds`
(absent fields are `none`). -/
structure Payload where
  failed_attempts : Option Int
  remaining_seconds : Option Int
  deriving Repr, DecidableEq

/-- JavaScript truthiness of an optional numeric field:
present and non-zero. -/
def truthyNum : Option Int → Bool
  | some n => n ≠ 0
  | none => false

/-- `loadTimeoutFromStorage` (without the DOM side effect): rehydrates the
module variables from storage (`parseInt(...) || 0` for the counter,
`parseInt(...) || null` for the expiry) and returns the countdown duration
passed to `disableForm` (`none` when `remainingTime` is `0` and
`disableForm` is not called).  `Math.round(Math.max(0,(t-now)/1000))`
becomes integer arithmetic on non-negative numerators. -/
def loadTimeoutFromStorage (now : Int) (s : LockState) : LockState × Option Int :=
  let fa : Int := s.storedAttempts.getD 0
  let te : Option Int :=
    match s.storedEnd with
    | none => none
    | some t => if t = 0 then none else some t
  let s' : LockState := { s with failedAttempts := fa, timeoutEndTime := te }
  let remaining : Int :=
    match te with
    | none => 0
    | some t => (max 0 (t - now) + 500) / 1000
  if remaining ≠ 0 then (s', some remaining) else (s', none)

/-- `setTimeoutFromServer`: persists the authoritative pair
(`failedAttempts := serverFailedAttempts`,
`timeoutEndTime := now + serverRemainingSeconds * 1000`)
and rehydrates via `loadTimeoutFromStorage`. -/
def setTimeoutFromServer (serverFailedAttempts serverRemainingSeconds now : Int)
    (s : LockState) : LockState × Option Int :=
  let s' : LockState :=
    { s with
      storedAttempts := some serverFailedAttempts
      storedEnd := some (now + serverRemainingSeconds * 1000) }
  loadTimeoutFromStorage now s'

/-- The inline threshold block of `updateFailedAttempts`
(`>= 9 → 300`, `>= 6 → 90`, `>= 3 → 60`, else `0`). -/
def timeoutDuration (failedAttempts : Int) : Int :=
  if failedAttempts ≥ 9 then 300
  else if failedAttempts ≥ 6 then 90
  else if failedAttempts ≥ 3 then 60
  else 0

/-- `updateFailedAttempts(responseStatus, result, action)`: the full state
transition.  The second component is the argument passed to `disableForm`
(`none` when `disableForm` is not reached). -/
def updateFailedAttempts (responseStatus : Int) (result : Payload) (now : Int)
    (s : LockState) : LockState × Option Int :=
  if ¬(responseStatus = 200 ∨ responseStatus = 400 ∨
       responseStatus = 401 ∨ responseStatus = 403) then
    (s, none)
  else if truthyNum result.failed_attempts ∧ truthyNum result.remaining_seconds then
    setTimeoutFromServer (result.failed_attempts.getD 0)
      (result.remaining_seconds.getD 0) now s
  else
    let s1 : LockState :=
      if responseStatus = 200 then
        { s with
          failedAttempts := 0, timeoutEndTime := none
          storedAttempts := none, storedEnd := none }
      else s
    let s2 : LockState :=
      if ¬(responseStatus = 200 ∨ responseStatus = 400) then
        { s1 with failedAttempts := s1.failedAttempts + 1 }
      else s1
    let s3 : LockState := { s2 with storedAttempts := some s2.failedAttempts }
    let dur : Int := timeoutDuration s3.failedAttempts
    let endTime : Int := now + dur * 1000
    let s4 : LockState := { s3 with timeoutEndTime := some endTime, storedEnd := some endTime }
    (s4, some dur)

/-- `isTimedOut` (predicate part only): an unexpired lockout is a non-null
`timeoutEndTime` strictly in the future. -/
def isTimedOut (now : Int) (s : LockState) : Bool :=
  match s.timeoutEndTime with
  | none => false
  | some t => if t = 0 then false else now < t

/-! ### Part II: the UI policy engine of `usgromana_settings.js` -/

/-- The current-user payload of `GET /usgromana/api/me`:
`{ role, is_admin }`.  A missing role is modelled as `""`
(the code defaults it via `currentUser.role || "user"`). -/
structure CurrentUser where
  role : String
  is_admin : Bool
  deriving Repr, DecidableEq

/-- One role's capability map: capability key to explicit boolean;
a key absent from the association list is an absent (undefined) value. -/
abbrev CapMap := List (String × Bool)

/-- `groupsConfig`: role name to capability map. -/
abbrev PolicyMap := List (String × CapMap)

/-- The ordered key set of `CSS_BLOCK_MAP` (the static suppression-target
table).  The CSS selector lists attached to each key are DOM locators and
are not needed by any computation modelled here. -/
def CSS_BLOCK_KEYS : List String :=
  ["ui_queue_button", "ui_batch_widget", "ui_extra_options",
   "ui_side_history", "ui_side_queue", "ui_side_assets", "ui_side_templates",
   "ui_menu_save", "ui_menu_load", "ui_menu_refresh",
   "ui_workflow_breadcrumb", "ui_menu_clipspace", "ui_menu_clear",
   "ui_menu_manager", "ui_menu_extensions", "ui_menu_templates",
   "settings_comfy", "settings_extension", "settings_user",
   "settings_keybinding", "settings_appearance", "settings_litegraph",
   "Serttings_3D", "settings_maskeditor", "settings_usgromanasettings",
   "settings_itools", "settings_crystools", "settings_rgthree",
   "settings_gallery", "settings_impact"]

/-- Result of one `updateEnforcementStyles` pass, at the level of the
injected rule-set.  `adminBypass` is the admin branch: it attempts to
clear `document.getElementById("Usgromana-css-block")` — capital U, an
element id that is never created anywhere in the repository (the
injected tag id is the lowercase `"usgromana-css-block"`) — so it
clears nothing, applies nothing, and returns; see `updateInjectedCss`
for the resulting staleness.  Otherwise a rule-set was computed and
written to the injected tag: `hiddenKeys` are the `CSS_BLOCK_MAP` keys
whose selectors received a `display:none !important` rule;
`forceLogout` records the always-visible rule for
`#usgromana-settings-logout-btn, [data-usgromana-always-visible]`;
`forceUsgromanaLi` records the extra always-visible rule for the
`li[aria-label]` Usgromana settings menu entries (emitted only by the
guest branch). -/
inductive EnforceOutcome where
  | adminBypass : EnforceOutcome
  | guestApplied (hiddenKeys : List String) (forceLogout forceUsgromanaLi : Bool) : EnforceOutcome
  | nonGuestApplied (hiddenKeys : List String) (forceLogout forceUsgromanaLi : Bool) : EnforceOutcome
  deriving Repr, DecidableEq

/-- `updateEnforcementStyles` (rule-set computation; the lazy fetches and
DOM writes are outside the model, and the subsequent
`enforceSidebar` / `enforceMenus` / `patchSaveConfirmDialog` calls are
modelled separately).  Faithful to the source: the role defaults to
`"user"`, a guest is never treated as admin, the admin branch returns
without computing a rule-set (its attempted clear targets the never
created capital-U id and therefore does not touch the injected tag),
the guest branch skips the two usgromana settings keys and blocks every
key not explicitly `true`, and the non-guest branch blocks exactly the
keys explicitly `false`. -/
def updateEnforcementStyles (u : CurrentUser) (groups : PolicyMap) : EnforceOutcome :=
  let role := if u.role = "" then "user" else u.role
  let isAdmin := if role = "guest" then false else u.is_admin
  if isAdmin then .adminBypass
  else if role = "guest" then
    let guestCfg := (groups.lookup "guest").getD []
    .guestApplied
      (CSS_BLOCK_KEYS.filter fun key =>
        if key = "settings_usgromanasettings" ∨ key = "settings_Usgromanasettings" then
          false
        else ¬(guestCfg.lookup key = some true))
      true true
  else
    let cfg := (groups.lookup role).getD []
    .nonGuestApplied
      (CSS_BLOCK_KEYS.filter fun key => (cfg.lookup key).getD true = false)
      true false

/-- The role resolution `currentUser.role || "user"`. -/
def effRole (u : CurrentUser) : String :=
  if u.role = "" then "user" else u.role

/-- The per-role capability map `groupsConfig[role] || {}`. -/
def roleCfg (groups : PolicyMap) (role : String) : CapMap :=
  (groups.lookup role).getD []

/-- The keys whose locators are hidden by the rule-set this pass
computes (the bypass pass computes none of its own). -/
def EnforceOutcome.hiddenKeys : EnforceOutcome → List String
  | .adminBypass => []
  | .guestApplied h _ _ => h
  | .nonGuestApplied h _ _ => h

/-- Whether this pass forces the `li[aria-label]` Usgromana settings
menu entries visible: the bypass pass emits no rules of its own, so it
does not suppress them; an applied rule-set must carry the dedicated
always-visible rule (only the guest branch emits it). -/
def EnforceOutcome.usgromanaLiForced : EnforceOutcome → Bool
  | .adminBypass => true
  | .guestApplied _ _ f => f
  | .nonGuestApplied _ _ f => f

/-- Content of the injected `style#usgromana-css-block` tag after one
pass, as a function of its previous content (`none` = the tag does not
exist).  The admin bypass looks up `"Usgromana-css-block"` — an id that
never matches the injected tag, created only with the lowercase id —
so on that path the previously injected rule-set persists untouched;
the guest and non-guest branches create or overwrite the tag with the
newly computed rule-set. -/
def updateInjectedCss (u : CurrentUser) (groups : PolicyMap)
    (prev : Option EnforceOutcome) : Option EnforceOutcome :=
  match updateEnforcementStyles u groups with
  | .adminBypass => prev
  | o => some o

/-- Whether the pass leaves the logout button unsuppressed: the bypass
pass applies no suppression of its own, and an applied rule-set must
carry the always-visible logout rule. -/
def EnforceOutcome.logoutVisible : EnforceOutcome → Bool
  | .adminBypass => true
  | .guestApplied _ fl _ => fl
  | .nonGuestApplied _ fl _ => fl

/-- The `shouldBlock` helper of `enforceMenus`: explicit value wins,
an undefined value defaults to blocked for guests and allowed otherwise. -/
def shouldBlock (cfg : CapMap) (role : String) (key : String) : Bool :=
  let val : Bool :=
    match cfg.lookup key with
    | some v => v
    | none => if role = "guest" then false else true
  val == false

/-- JavaScript `\s` for the characters relevant here (ASCII whitespace
plus the Unicode space separators tested by the regexes). -/
def isJsSpace (c : Char) : Bool :=
  c = ' ' || c = Char.ofNat 9 || c = Char.ofNat 10 || c = Char.ofNat 11 ||
  c = Char.ofNat 12 || c = Char.ofNat 13 || c = Char.ofNat 0xa0 ||
  c = Char.ofNat 0x1680 || (0x2000 ≤ c.toNat && c.toNat ≤ 0x200a) ||
  c = Char.ofNat 0x2028 || c = Char.ofNat 0x2029 || c = Char.ofNat 0x202f ||
  c = Char.ofNat 0x205f || c = Char.ofNat 0x3000 || c = Char.ofNat 0xfeff

/-- JavaScript `String.prototype.trim`. -/
def trimList (s : List Char) : List Char :=
  ((s.dropWhile isJsSpace).reverse.dropWhile isJsSpace).reverse

/-- `getSanitizedId`: empty text maps to `""`, otherwise
`"settings_" + text.trim().toLowerCase().replace(/[^a-z0-9]/g, "")`. -/
def getSanitizedId (text : List Char) : String :=
  if text = [] then ""
  else
    String.mk ("settings_".toList ++
      ((trimList text).map Char.toLower).filter fun c =>
        decide (('a' ≤ c ∧ c ≤ 'z') ∨ ('0' ≤ c ∧ c ≤ '9')))

/-- What `enforceSidebar` does to a single scanned element. -/
inductive SidebarAction where
  | forcedVisible : SidebarAction
  | ignored : SidebarAction
  | hidden : SidebarAction
  | shown : SidebarAction
  deriving Repr, DecidableEq

/-- The per-element decision of `enforceSidebar`.  `isLogoutElem`
abstracts the three DOM tests identifying the logout button (its id, its
inner text, or a descendant with the id). -/
def enforceSidebarElem (cfg : CapMap) (role : String) (isLogoutElem : Bool)
    (ariaLabel : Option String) (innerText : List Char) : SidebarAction :=
  if isLogoutElem then .forcedVisible
  else
    let ariaMatch : Bool :=
      match ariaLabel with
      | some a => a.toLower == "usgromana" || a == "Usgromana"
      | none => false
    if ariaMatch then .forcedVisible
    else
      let txt := trimList innerText
      if txt = [] ∨ txt.length > 30 ∨ txt = "Close".toList ∨ txt = "Back".toList then
        .ignored
      else
        let catId := getSanitizedId txt
        if catId = "usgromanasettings" ∨ catId = "Usgromana" ∨
            String.mk (txt.map Char.toLower) = "Usgromana" then
          .forcedVisible
        else
          let val : Bool :=
            match cfg.lookup catId with
            | some v => v
            | none => if role = "guest" then false else true
          if val == false then .hidden else .shown

/-- `isWorkflowSaveAllowed`: fail-open while either cache is unset;
explicit `false` on `ui_menu_save` denies; guests are denied unless
explicitly `true`. -/
def isWorkflowSaveAllowed (cu : Option CurrentUser) (groups : Option PolicyMap) : Bool :=
  match cu, groups with
  | some u, some g =>
    let role := if u.role = "" then "user" else u.role
    let cfg := (g.lookup role).getD []
    if cfg.lookup "ui_menu_save" = some false then false
    else if role = "guest" ∧ ¬(cfg.lookup "ui_menu_save" = some true) then false
    else true
  | _, _ => true

/-- Observable effect of the 403 branch inside the wrapped fetch of
`installWorkflowSaveDeniedWatcher`: whether `showWorkflowDeniedToast`
runs and whether the inconsistency `console.warn` is emitted. -/
structure WatcherEffect where
  toastShown : Bool
  inconsistencyLogged : Bool
  deriving Repr, DecidableEq

/-- The decision logic of the wrapped fetch: only a 403 from a URL
containing the workflow userdata endpoint is inspected; the toast is
shown only when `isWorkflowSaveAllowed` denies, otherwise the
disagreement is logged and no toast appears. -/
def workflowDeniedWatcher (status : Int) (urlHasWorkflowEndpoint : Bool)
    (cu : Option CurrentUser) (groups : Option PolicyMap) : WatcherEffect :=
  if status = 403 ∧ urlHasWorkflowEndpoint then
    if isWorkflowSaveAllowed cu groups then ⟨false, true⟩
    else ⟨true, false⟩
  else ⟨false, false⟩

/-! ### Part III: error propagation structure of the enforcement pass

`updateEnforcementStyles` invokes `enforceSidebar`, `enforceMenus` and
`patchSaveConfirmDialog` in sequence, and the `setInterval` callback
likewise sequences its steps; none of these call sites is wrapped in
`try`/`catch`.  The steps are DOM effects, so each is abstracted as a
fallible state transformer. -/

/-- Sequencing of enforcement steps exactly as in the source: no step is
guarded, so the first error short-circuits the rest of the pass. -/
def enforcePassSeq {α ε : Type} (steps : List (α → Except ε α)) (d : α) : Except ε α :=
  match steps with
  | [] => .ok d
  | step :: rest =>
    match step d with
    | .error e => .error e
    | .ok d' => enforcePassSeq rest d'

/-- The per-step-isolated variant described by the spec: each step's
error is caught and the remaining steps still run on the last good
state. -/
def enforcePassIsolated {α ε : Type} (steps : List (α → Except ε α)) (d : α) : α :=
  steps.foldl (fun d step =>
    match step d with
    | .ok d' => d'
    | .error _ => d) d

/-- The repeating enforcement timer: every tick is a fresh callback
invocation, independent of the fate of earlier ticks. -/
def enforcementTicks {α ε : Type} (pass : α → Except ε α) (doms : List α) :
    List (Except ε α) :=
  doms.map pass

/-! ### Part IV: registration form validation (`validateRegisterForm`) -/

/-- The character class of the regex `[^a-zA-Z0-9_]`, negated: a word
character. -/
def isWordChar (c : Char) : Bool :=
  ('a' ≤ c && c ≤ 'z') || ('A' ≤ c && c ≤ 'Z') || ('0' ≤ c && c ≤ '9') || c = '_'

/-- The regex `\d`. -/
def isDigitChar (c : Char) : Bool :=
  '0' ≤ c && c ≤ '9'

/-- The fixed punctuation/symbol class of the password regex
(codes 123/125 are the braces, 39 the apostrophe, 34 the double quote,
96 the backtick). -/
def isSpecialChar (c : Char) : Bool :=
  c = '!' || c = '@' || c = '#' || c = '$' || c = '%' || c = '^' || c = '&' ||
  c = '*' || c = '(' || c = ')' || c = '_' || c = '+' || c = '-' || c = '=' ||
  c = '[' || c = ']' || c = Char.ofNat 123 || c = Char.ofNat 125 || c = ';' ||
  c = Char.ofNat 39 || c = ':' || c = Char.ofNat 34 || c = '\\' || c = '|' ||
  c = ',' || c = '.' || c = '<' || c = '>' || c = '?' || c = '/' ||
  c = Char.ofNat 96 || c = '~'

/-- `validateRegisterForm` on the two field values (the DOM reads and the
toast/class side effects are outside the model; the returned boolean is
the validation verdict).  The four guard clauses appear in source
order. -/
def validateRegisterForm (newUsername newPassword : List Char) : Bool :=
  if newUsername.any (fun c => !isWordChar c) = true ∨ newUsername.any isJsSpace = true then
    false
  else if trimList newUsername = [] ∨ (trimList newUsername).length < 3 then
    false
  else if trimList newPassword = [] ∨ newPassword.any isJsSpace = true then
    false
  else if (trimList newPassword).length < 8 ∨ ¬(newPassword.any isDigitChar = true) ∨
      ¬(newPassword.any isSpecialChar = true) then
    false
  else
    true

/-! ## Theorems -/

/-- Branch normal form of `updateEnforcementStyles`: the guest branch
never sees the admin bypass, and the bypass fires exactly on a non-guest
user's `is_admin` flag. -/
theorem updateEnforcementStyles_cases (u : CurrentUser) (groups : PolicyMap) :
    updateEnforcementStyles u groups =
      (if effRole u = "guest" then
        EnforceOutcome.guestApplied
          (CSS_BLOCK_KEYS.filter fun key =>
            if key = "settings_usgromanasettings" ∨ key = "settings_Usgromanasettings" then
              false
            else ¬((roleCfg groups "guest").lookup key = some true))
          true true
      else if u.is_admin then EnforceOutcome.adminBypass
      else
        EnforceOutcome.nonGuestApplied
          (CSS_BLOCK_KEYS.filter fun key =>
            ((roleCfg groups (effRole u)).lookup key).getD true = false)
          true false) := by
  unfold updateEnforcementStyles effRole roleCfg
  by_cases hg : (if u.role = "" then "user" else u.role) = "guest" <;>
    by_cases hb : u.is_admin <;> simp [hg, hb]

/-- C2: for every failed-attempt count `n ≥ 0`, the lockout duration is
300s for `n ≥ 9`, 90s for `6 ≤ n < 9`, 60s for `3 ≤ n < 6` and 0s for
`n < 3`, and the duration is monotonically non-decreasing in the
count. -/
theorem c2_lockout_duration_thresholds (m n : Int) (hm : 0 ≤ m) (hmn : m ≤ n) :
    ((9 ≤ n → timeoutDuration n = 300) ∧
     (6 ≤ n ∧ n < 9 → timeoutDuration n = 90) ∧
     (3 ≤ n ∧ n < 6 → timeoutDuration n = 60) ∧
     (n < 3 → timeoutDuration n = 0)) ∧
    timeoutDuration m ≤ timeoutDuration n := by
  unfold timeoutDuration
  constructor
  · refine ⟨fun h => ?_, fun h => ?_, fun h => ?_, fun h => ?_⟩ <;>
      split_ifs <;> omega
  · split_ifs <;> omega

/-- Witness for C2 at the concrete pair `m = 4`, `n = 10`. -/
theorem c2_lockout_duration_thresholds_witness :
    timeoutDuration 10 = 300 ∧ timeoutDuration 4 ≤ timeoutDuration 10 :=
  ⟨(c2_lockout_duration_thresholds 4 10 (by norm_num) (by norm_num)).1.1 (by norm_num),
   (c2_lockout_duration_thresholds 4 10 (by norm_num) (by norm_num)).2⟩

/-- C3 counterexample: a status-200 response whose payload carries the
truthy authoritative pair `(failed_attempts := 3, remaining_seconds := 60)`
does not reset the counter and leaves an unexpired lockout in memory and
in storage, refuting the claim as quantified over every server payload. -/
theorem c3_counterexample :
    (updateFailedAttempts 200 ⟨some 3, some 60⟩ 0 ⟨0, none, none, none⟩).1 =
      ⟨3, some 60000, some 3, some 60000⟩ ∧
    isTimedOut 0 (updateFailedAttempts 200 ⟨some 3, some 60⟩ 0 ⟨0, none, none, none⟩).1 = true := by
  constructor <;> rfl

/-- C3 amended: for every prior state and every payload that does not
carry a truthy authoritative pair, a status-200 call resets the counter
to 0 in memory and in storage, sets both expiry slots to the call time
(so no unexpired lockout remains), and re-enables the control with a
zero countdown. -/
theorem c3_success_resets (result : Payload) (now : Int) (s : LockState)
    (h : ¬(truthyNum result.failed_attempts = true ∧
           truthyNum result.remaining_seconds = true)) :
    (updateFailedAttempts 200 result now s).1.failedAttempts = 0 ∧
    (updateFailedAttempts 200 result now s).1.storedAttempts = some 0 ∧
    (updateFailedAttempts 200 result now s).1.timeoutEndTime = some now ∧
    (updateFailedAttempts 200 result now s).1.storedEnd = some now ∧
    isTimedOut now (updateFailedAttempts 200 result now s).1 = false ∧
    (updateFailedAttempts 200 result now s).2 = some 0 := by
  have h200 : ¬¬((200 : Int) = 200 ∨ (200 : Int) = 400 ∨ (200 : Int) = 401 ∨
      (200 : Int) = 403) := by norm_num
  simp only [updateFailedAttempts, if_neg h200, if_neg h]
  norm_num [timeoutDuration, isTimedOut]

/-- Witness for C3 at a concrete prior lockout state and empty payload. -/
theorem c3_success_resets_witness :
    (updateFailedAttempts 200 ⟨none, none⟩ 5 ⟨7, some 99, some 7, some 99⟩).1.failedAttempts = 0 ∧
    (updateFailedAttempts 200 ⟨none, none⟩ 5 ⟨7, some 99, some 7, some 99⟩).1.storedAttempts = some 0 ∧
    (updateFailedAttempts 200 ⟨none, none⟩ 5 ⟨7, some 99, some 7, some 99⟩).1.timeoutEndTime = some 5 ∧
    (updateFailedAttempts 200 ⟨none, none⟩ 5 ⟨7, some 99, some 7, some 99⟩).1.storedEnd = some 5 ∧
    isTimedOut 5 (updateFailedAttempts 200 ⟨none, none⟩ 5 ⟨7, some 99, some 7, some 99⟩).1 = false ∧
    (updateFailedAttempts 200 ⟨none, none⟩ 5 ⟨7, some 99, some 7, some 99⟩).2 = some 0 :=
  c3_success_resets ⟨none, none⟩ 5 ⟨7, some 99, some 7, some 99⟩ (by decide)

/-- C4 counterexample: a non-accepted status (500) carrying the truthy
authoritative pair is ignored wholesale — the local state is untouched —
refuting the unconditional overwrite claimed for every response
status. -/
theorem c4_counterexample :
    updateFailedAttempts 500 ⟨some 3, some 60⟩ 0 ⟨1, none, some 1, none⟩ =
      (⟨1, none, some 1, none⟩, none) := by
  rfl

/-- C4 amended: for every accepted status (200, 400, 401 or 403) and
every truthy authoritative pair, the pair overwrites the local count and
expiry regardless of the prior state, and the persisted expiry equals
`now + remaining_seconds * 1000`. -/
theorem c4_authoritative_pair (status fa rs now : Int) (s : LockState)
    (hstatus : status = 200 ∨ status = 400 ∨ status = 401 ∨ status = 403)
    (hfa : fa ≠ 0) (hrs : rs ≠ 0) :
    (updateFailedAttempts status ⟨some fa, some rs⟩ now s).1.storedAttempts = some fa ∧
    (updateFailedAttempts status ⟨some fa, some rs⟩ now s).1.storedEnd =
      some (now + rs * 1000) ∧
    (updateFailedAttempts status ⟨some fa, some rs⟩ now s).1.failedAttempts = fa ∧
    (updateFailedAttempts status ⟨some fa, some rs⟩ now s).1.timeoutEndTime =
      (if now + rs * 1000 = 0 then none else some (now + rs * 1000)) := by
  have hpair : truthyNum (some fa) = true ∧ truthyNum (some rs) = true := by
    simp [truthyNum, hfa, hrs]
  simp only [updateFailedAttempts, setTimeoutFromServer, loadTimeoutFromStorage,
    if_neg (not_not.mpr hstatus), if_pos hpair]
  split_ifs <;> simp_all

/-- Witness for C4 at status 401 with the pair `(5, 30)`. -/
theorem c4_authoritative_pair_witness :
    (updateFailedAttempts 401 ⟨some 5, some 30⟩ 0 ⟨0, none, none, none⟩).1.storedAttempts = some 5 ∧
    (updateFailedAttempts 401 ⟨some 5, some 30⟩ 0 ⟨0, none, none, none⟩).1.storedEnd = some 30000 ∧
    (updateFailedAttempts 401 ⟨some 5, some 30⟩ 0 ⟨0, none, none, none⟩).1.failedAttempts = 5 ∧
    (updateFailedAttempts 401 ⟨some 5, some 30⟩ 0 ⟨0, none, none, none⟩).1.timeoutEndTime =
      (if (0 : Int) + 30 * 1000 = 0 then none else some ((0 : Int) + 30 * 1000)) :=
  c4_authoritative_pair 401 5 30 0 ⟨0, none, none, none⟩ (by norm_num) (by norm_num) (by norm_num)

/-- C5 counterexample: an accepted status 400 without an authoritative
pair leaves the failed-attempt counter unchanged (it does not increment
it to 3 as the claim requires). -/
theorem c5_counterexample :
    (updateFailedAttempts 400 ⟨none, none⟩ 0 ⟨2, none, some 2, none⟩).1.failedAttempts = 2 ∧
    ¬((updateFailedAttempts 400 ⟨none, none⟩ 0 ⟨2, none, some 2, none⟩).1.failedAttempts = 3) := by
  constructor <;> decide

/-- C5 amended: without an authoritative pair, only statuses in
{200, 400, 401, 403} have any effect; among them exactly 401 and 403
increment the counter by one, while 400 leaves it unchanged. -/
theorem c5_status_filter_and_increments (status : Int) (result : Payload) (now : Int)
    (s : LockState)
    (hpair : ¬(truthyNum result.failed_attempts = true ∧
               truthyNum result.remaining_seconds = true)) :
    (¬(status = 200 ∨ status = 400 ∨ status = 401 ∨ status = 403) →
      updateFailedAttempts status result now s = (s, none)) ∧
    (status = 401 ∨ status = 403 →
      (updateFailedAttempts status result now s).1.failedAttempts = s.failedAttempts + 1) ∧
    (status = 400 →
      (updateFailedAttempts status result now s).1.failedAttempts = s.failedAttempts) := by
  refine ⟨fun h => ?_, fun h => ?_, fun h => ?_⟩
  · simp [updateFailedAttempts, h]
  · rcases h with h | h <;> subst h <;>
      simp [updateFailedAttempts, hpair]
  · subst h
    simp [updateFailedAttempts, hpair]

/-- Witness for C5: a 401 without a pair increments 2 to 3. -/
theorem c5_status_filter_and_increments_witness :
    (updateFailedAttempts 401 ⟨none, none⟩ 0 ⟨2, none, some 2, none⟩).1.failedAttempts = 2 + 1 :=
  (c5_status_filter_and_increments 401 ⟨none, none⟩ 0 ⟨2, none, some 2, none⟩
    (by decide)).2.1 (Or.inl rfl)

/-- C6: `validateRegisterForm` accepts exactly the username/password
pairs described by the validation table — username made of word
characters only with trimmed length at least 3, password without
whitespace, trimmed length at least 8, containing a digit and a
character of the fixed symbol set — and the quoted examples behave as
claimed. -/
theorem c6_validate_register_form :
    (∀ u p : List Char,
      validateRegisterForm u p = true ↔
        ((∀ c ∈ u, isWordChar c = true) ∧ (∀ c ∈ u, isJsSpace c = false) ∧
         3 ≤ (trimList u).length ∧
         (∀ c ∈ p, isJsSpace c = false) ∧ 8 ≤ (trimList p).length ∧
         (∃ c ∈ p, isDigitChar c = true) ∧ (∃ c ∈ p, isSpecialChar c = true))) ∧
    validateRegisterForm "ab_1".toList "passw0rd!".toList = true ∧
    validateRegisterForm "ab".toList "passw0rd!".toList = false ∧
    validateRegisterForm "a b".toList "passw0rd!".toList = false ∧
    validateRegisterForm "bad name!".toList "passw0rd!".toList = false ∧
    validateRegisterForm "ab_1".toList "password1".toList = false := by
  refine ⟨?_, by decide, by decide, by decide, by decide, by decide⟩
  intro u p
  simp only [validateRegisterForm]
  split_ifs with h1 h2 h3 h4
  · simp only [false_iff]
    rintro ⟨hw, hs, -⟩
    rcases h1 with h | h
    · obtain ⟨c, hc, hcw⟩ := List.any_eq_true.mp h
      have := hw c hc
      simp_all
    · obtain ⟨c, hc, hcs⟩ := List.any_eq_true.mp h
      have := hs c hc
      simp_all
  · simp only [false_iff]
    rintro ⟨-, -, hlen, -⟩
    rcases h2 with h | h
    · simp [h] at hlen
    · omega
  · simp only [false_iff]
    rintro ⟨-, -, -, hps, hplen, -⟩
    rcases h3 with h | h
    · simp [h] at hplen
    · obtain ⟨c, hc, hcs⟩ := List.any_eq_true.mp h
      have := hps c hc
      simp_all
  · simp only [false_iff]
    rintro ⟨-, -, -, -, hplen, hd, hsp⟩
    rcases h4 with h | h | h
    · omega
    · obtain ⟨c, hc, hcd⟩ := hd
      exact h (List.any_eq_true.mpr ⟨c, hc, hcd⟩)
    · obtain ⟨c, hc, hcd⟩ := hsp
      exact h (List.any_eq_true.mpr ⟨c, hc, hcd⟩)
  · simp only [true_iff]
    push_neg at h1 h2 h3 h4
    obtain ⟨h1a, h1b⟩ := h1
    obtain ⟨h2a, h2b⟩ := h2
    obtain ⟨h3a, h3b⟩ := h3
    obtain ⟨h4a, h4b, h4c⟩ := h4
    refine ⟨?_, ?_, by omega, ?_, by omega, ?_, ?_⟩
    · intro c hc
      by_contra hcw
      exact h1a (List.any_eq_true.mpr ⟨c, hc, by simp_all⟩)
    · intro c hc
      by_contra hcs
      exact h1b (List.any_eq_true.mpr ⟨c, hc, by simp_all⟩)
    · intro c hc
      by_contra hcs
      exact h3b (List.any_eq_true.mpr ⟨c, hc, by simp_all⟩)
    · obtain ⟨c, hc, hcd⟩ := List.any_eq_true.mp h4b
      exact ⟨c, hc, hcd⟩
    · obtain ⟨c, hc, hcd⟩ := List.any_eq_true.mp h4c
      exact ⟨c, hc, hcd⟩

/-- Witness for C6: the characterization applied to a fresh concrete
pair. -/
theorem c6_validate_register_form_witness :
    validateRegisterForm "user_1".toList "hunter2![]".toList = true :=
  (c6_validate_register_form.1 "user_1".toList "hunter2![]".toList).mpr (by decide)

/-- C7 counterexample: a 403 from the workflow-persistence endpoint
while `isWorkflowSaveAllowed` reports the save as allowed (role `user`,
empty policy map) logs the inconsistency but does not surface the
transient denial notification, refuting the claim that the notification
is still shown. -/
theorem c7_counterexample :
    isWorkflowSaveAllowed (some ⟨"user", false⟩) (some []) = true ∧
    (workflowDeniedWatcher 403 true (some ⟨"user", false⟩) (some [])).toastShown = false ∧
    (workflowDeniedWatcher 403 true (some ⟨"user", false⟩) (some [])).inconsistencyLogged = true := by
  refine ⟨by decide, by decide, by decide⟩

/-- C7 amended: on a 403 from the workflow-persistence endpoint, the
transient notification is surfaced exactly when the client-side
capability check confirms the denial; when the check disagrees, no
notification is surfaced and the inconsistency is logged for
diagnosis. -/
theorem c7_watcher_denial_handling (cu : Option CurrentUser) (groups : Option PolicyMap) :
    (isWorkflowSaveAllowed cu groups = true →
      workflowDeniedWatcher 403 true cu groups = ⟨false, true⟩) ∧
    (isWorkflowSaveAllowed cu groups = false →
      workflowDeniedWatcher 403 true cu groups = ⟨true, false⟩) := by
  constructor <;> intro h <;> simp [workflowDeniedWatcher, h]

/-- Witness for C7: a disagreeing check (role `power`) suppresses the
toast and logs; a confirming check (role `guest`, default-deny) shows
the toast. -/
theorem c7_watcher_denial_handling_witness :
    workflowDeniedWatcher 403 true (some ⟨"power", false⟩) (some []) = ⟨false, true⟩ ∧
    workflowDeniedWatcher 403 true (some ⟨"guest", false⟩) (some []) = ⟨true, false⟩ :=
  ⟨(c7_watcher_denial_handling (some ⟨"power", false⟩) (some [])).1 (by decide),
   (c7_watcher_denial_handling (some ⟨"guest", false⟩) (some [])).2 (by decide)⟩

/-- C8 counterexample: with the un-guarded sequencing of the source, an
error raised in the first enforcement step aborts the pass before the
second step runs (the per-step-isolated semantics the claim describes
would still have applied the second step). -/
theorem c8_counterexample :
    enforcePassSeq
      [fun _ : Nat => (Except.error 0 : Except Nat Nat),
       fun n : Nat => Except.ok (n + 1)] 0 = Except.error 0 ∧
    enforcePassIsolated
      [fun _ : Nat => (Except.error 0 : Except Nat Nat),
       fun n : Nat => Except.ok (n + 1)] 0 = 1 := by
  constructor <;> rfl

/-- C8 amended: no enforcement step is individually guarded — the first
error propagates out of the pass, skipping the remaining steps — while
the repeating timer invokes each tick independently, so a failed pass
does not prevent the next tick. -/
theorem c8_error_propagation (step : Nat → Except Nat Nat)
    (rest : List (Nat → Except Nat Nat)) (d e : Nat)
    (h : step d = Except.error e) :
    enforcePassSeq (step :: rest) d = Except.error e ∧
    ∀ (pass : Nat → Except Nat Nat) (doms : List Nat) (dNext : Nat),
      enforcementTicks pass (doms ++ [dNext]) =
        enforcementTicks pass doms ++ [pass dNext] := by
  constructor
  · simp [enforcePassSeq, h]
  · intro pass doms dNext
    simp [enforcementTicks]

/-- Witness for C8 with a concrete failing first step. -/
theorem c8_error_propagation_witness :
    enforcePassSeq
      [fun _ : Nat => (Except.error 7 : Except Nat Nat),
       fun n : Nat => Except.ok (n + 1)] 0 = Except.error 7 :=
  (c8_error_propagation (fun _ : Nat => (Except.error 7 : Except Nat Nat))
    [fun n : Nat => Except.ok (n + 1)] 0 7 rfl).1

/-- C9: on every enforcement pass a guest is never granted the admin
bypass — the outcome for role `guest` is independent of the server's
`is_admin` flag and is never the admin-bypass path. -/
theorem c9_guest_never_admin_bypass (groups : PolicyMap) (b : Bool) :
    updateEnforcementStyles ⟨"guest", b⟩ groups =
      updateEnforcementStyles ⟨"guest", false⟩ groups ∧
    updateEnforcementStyles ⟨"guest", b⟩ groups ≠ EnforceOutcome.adminBypass := by
  constructor <;> simp [updateEnforcementStyles]

/-- Witness for C9 at the concrete flagged guest and empty map. -/
theorem c9_guest_never_admin_bypass_witness :
    updateEnforcementStyles ⟨"guest", true⟩ [] =
      updateEnforcementStyles ⟨"guest", false⟩ [] ∧
    updateEnforcementStyles ⟨"guest", true⟩ [] ≠ EnforceOutcome.adminBypass :=
  c9_guest_never_admin_bypass [] true

/-- C1 counterexample: for role `guest` and the empty policy map the
capability key `settings_usgromanasettings` has an absent value, yet the
computed rule-set does not block it (the guest loop skips that key), so
"an absent value is blocked" does not hold for every capability key. -/
theorem c1_counterexample :
    "settings_usgromanasettings" ∈ CSS_BLOCK_KEYS ∧
    "settings_usgromanasettings" ∉
      (updateEnforcementStyles ⟨"guest", false⟩ []).hiddenKeys := by
  constructor <;> decide

/-- C1 amended: the admin bypass is taken exactly for a non-guest user
whose `is_admin` flag is set, and on that path the pass applies no new
suppression but also fails to clear a previously injected rule-set
(the clear targets the capital-U id `"Usgromana-css-block"`, which is
never created — the injected tag id is lowercase — so stale suppression
persists; the source's own comment announces a complete bypass, making
the dead clear a slip in the code).  A key is blocked for a guest
exactly when it is a `CSS_BLOCK_MAP` key other than the two
always-visible usgromana settings keys and its value is not explicitly
`true`; a key is blocked for any other role exactly when its value is
explicitly `false`; and the `shouldBlock` evaluation used for menus and
sidebar follows the claimed default rule (guest: absent blocked, only
explicit `true` allows; non-guest: absent allowed, only explicit
`false` blocks) for every key. -/
theorem c1_effective_policy (u : CurrentUser) (groups : PolicyMap) (key : String) :
    (updateEnforcementStyles u groups = EnforceOutcome.adminBypass ↔
      (effRole u ≠ "guest" ∧ u.is_admin = true)) ∧
    ((effRole u ≠ "guest" ∧ u.is_admin = true) →
      ∀ prev : Option EnforceOutcome, updateInjectedCss u groups prev = prev) ∧
    (key ∈ (updateEnforcementStyles u groups).hiddenKeys ↔
      (¬(effRole u ≠ "guest" ∧ u.is_admin = true) ∧ key ∈ CSS_BLOCK_KEYS ∧
        (if effRole u = "guest" then
          ¬(key = "settings_usgromanasettings" ∨ key = "settings_Usgromanasettings") ∧
            ¬((roleCfg groups "guest").lookup key = some true)
         else (roleCfg groups (effRole u)).lookup key = some false))) ∧
    (shouldBlock (roleCfg groups (effRole u)) (effRole u) key = true ↔
      (if effRole u = "guest" then ¬((roleCfg groups "guest").lookup key = some true)
       else (roleCfg groups (effRole u)).lookup key = some false)) := by
  have hbypass : updateEnforcementStyles u groups = EnforceOutcome.adminBypass ↔
      (effRole u ≠ "guest" ∧ u.is_admin = true) := by
    rw [updateEnforcementStyles_cases]
    by_cases hg : effRole u = "guest" <;> by_cases hb : u.is_admin <;> simp [hg, hb]
  refine ⟨hbypass, ?_, ?_, ?_⟩
  · intro h prev
    simp [updateInjectedCss, hbypass.mpr h]
  · rw [updateEnforcementStyles_cases]
    by_cases hg : effRole u = "guest" <;> by_cases hb : u.is_admin <;>
      by_cases hk : key = "settings_usgromanasettings" ∨ key = "settings_Usgromanasettings" <;>
        simp [hg, hb, hk, EnforceOutcome.hiddenKeys, List.mem_filter] <;>
        first
          | (rcases hk with rfl | rfl <;> simp)
          | (push_neg at hk
             exact fun _ _ => hk)
          | (intro _
             cases hl : List.lookup key (roleCfg groups (effRole u)) <;> simp [hl])
  · have hguest : effRole u = "guest" → roleCfg groups (effRole u) = roleCfg groups "guest" := by
      intro h; rw [h]
    rcases hl : (roleCfg groups (effRole u)).lookup key with - | v
    · by_cases hg : effRole u = "guest" <;>
        simp [shouldBlock, hl, hg, hguest, ← hguest]
    · by_cases hg : effRole u = "guest" <;> cases v <;>
        simp_all [shouldBlock, hl, hg]

/-- Witness for C1: at the concrete guest user, empty map and key
`ui_menu_save`, the characterization yields a blocked key; and at a
concrete flagged admin, a previously injected guest rule-set survives
the bypass pass untouched (the stale-suppression clause). -/
theorem c1_effective_policy_witness :
    "ui_menu_save" ∈ (updateEnforcementStyles ⟨"guest", false⟩ []).hiddenKeys ∧
    updateInjectedCss ⟨"admin", true⟩ []
        (some (EnforceOutcome.guestApplied ["ui_menu_save"] true true)) =
      some (EnforceOutcome.guestApplied ["ui_menu_save"] true true) :=
  ⟨((c1_effective_policy ⟨"guest", false⟩ [] "ui_menu_save").2.2.1).mpr (by decide),
   (c1_effective_policy ⟨"admin", true⟩ [] "ui_menu_save").2.1 (by decide)
     (some (EnforceOutcome.guestApplied ["ui_menu_save"] true true))⟩

/-- C10 counterexample: for the non-guest role `user` and a policy map
explicitly blocking `settings_usgromanasettings`, the enforcement pass
does emit a suppression rule for the Usgromana settings menu entry's
locators, so the entry is not exempt for every role and map. -/
theorem c10_counterexample :
    "settings_usgromanasettings" ∈
      (updateEnforcementStyles ⟨"user", false⟩
        [("user", [("settings_usgromanasettings", false)])]).hiddenKeys := by
  decide

/-- C10 amended: the guest rule-set never blocks either usgromana
settings key and always carries the force-visible rules for the logout
button and the Usgromana menu entry; every pass (any role, any map)
keeps the logout button visible; and the sidebar scanner always shows
the logout element and any element labelled Usgromana.  (Only for a
non-guest role with an explicit `false` on `settings_usgromanasettings`
does the rule-set block the menu entry, as the counterexample shows.) -/
theorem c10_always_visible_protections (groups : PolicyMap) (b : Bool) (u : CurrentUser)
    (cfg : CapMap) (role : String) (aria : Option String) (txt : List Char) :
    "settings_usgromanasettings" ∉
      (updateEnforcementStyles ⟨"guest", b⟩ groups).hiddenKeys ∧
    "settings_Usgromanasettings" ∉
      (updateEnforcementStyles ⟨"guest", b⟩ groups).hiddenKeys ∧
    (updateEnforcementStyles ⟨"guest", b⟩ groups).usgromanaLiForced = true ∧
    (updateEnforcementStyles u groups).logoutVisible = true ∧
    enforceSidebarElem cfg role true aria txt = SidebarAction.forcedVisible ∧
    enforceSidebarElem cfg role false (some "Usgromana") txt = SidebarAction.forcedVisible := by
  have hguest : effRole ⟨"guest", b⟩ = "guest" := by simp [effRole]
  refine ⟨?_, ?_, ?_, ?_, ?_, ?_⟩
  · rw [updateEnforcementStyles_cases]
    simp [hguest, EnforceOutcome.hiddenKeys, List.mem_filter]
  · rw [updateEnforcementStyles_cases]
    simp [hguest, EnforceOutcome.hiddenKeys, List.mem_filter]
  · rw [updateEnforcementStyles_cases]
    simp [hguest, EnforceOutcome.usgromanaLiForced]
  · rw [updateEnforcementStyles_cases]
    by_cases hg : effRole u = "guest" <;> by_cases hb : u.is_admin <;>
      simp [hg, hb, EnforceOutcome.logoutVisible]
  · simp [enforceSidebarElem]
  · simp [enforceSidebarElem]

/-- Witness for C10 at concrete arguments. -/
theorem c10_always_visible_protections_witness :
    "settings_usgromanasettings" ∉
      (updateEnforcementStyles ⟨"guest", true⟩ []).hiddenKeys ∧
    "settings_Usgromanasettings" ∉
      (updateEnforcementStyles ⟨"guest", true⟩ []).hiddenKeys ∧
    (updateEnforcementStyles ⟨"guest", true⟩ []).usgromanaLiForced = true ∧
    (updateEnforcementStyles ⟨"power", false⟩ []).logoutVisible = true ∧
    enforceSidebarElem [] "power" true none [] = SidebarAction.forcedVisible ∧
    enforceSidebarElem [] "power" false (some "Usgromana") [] = SidebarAction.forcedVisible :=
  c10_always_visible_protections [] true ⟨"power", false⟩ [] "power" none []

end Usgromana
